import Mathlib

/-!
Shallow embedding of the Dagger CI/CD pipeline module defined in
`.dagger/src/index.ts` (class `MyNestApp` with operations `deployToServer`,
`deploy`, `test`, `build` and the private helper `base`).

Containers are embedded as the list of declarative SDK steps used to build
them.  Execution is parameterised by a `World` that decides, for each
executed command line, whether it exits zero, what it prints, and whether a
registry push is accepted.  Running a container yields the trace of executed
commands together with a success flag; a pipeline function returns its trace
paired with an `Except` result, mirroring the sequential await/throw control
flow of the TypeScript source.
-/

/-- Opaque secret handle; the platform exposes its plaintext at the single
point of use, modelled as a field. -/
structure Secret where
  plaintext : String
deriving DecidableEq

mutual

/-- Directory handle: either a source tree supplied by the caller, or a
directory extracted (lazily) from a container build, as in
`container.directory(path)`. -/
inductive Directory where
  | source (id : Nat)
  | ofContainer (steps : List CStep) (path : String)

/-- One declarative container-build step of the Dagger SDK, as used by the
TypeScript module. -/
inductive CStep where
  | fromImage (image : String)
  | withExec (args : List String)
  | withDirectory (path : String) (dir : Directory) (exclude : List String)
  | withWorkdir (path : String)
  | withMountedCache (path : String) (volume : String)
  | withMountedSecret (path : String) (sec : Secret)
  | withEnvVariable (key value : String) (expand : Bool)
  | withEntrypoint (args : List String)
  | withLabel (key value : String)
  | withRegistryAuth (addr user : String) (pw : Secret)

end

/-- Container under construction: the ordered list of steps applied so far. -/
structure Container where
  steps : List CStep

/-- Empty container, as returned by `dag.container()`. -/
def dagContainer : Container := ⟨[]⟩

def Container.fromImage (c : Container) (image : String) : Container :=
  ⟨c.steps ++ [CStep.fromImage image]⟩

def Container.withExec (c : Container) (args : List String) : Container :=
  ⟨c.steps ++ [CStep.withExec args]⟩

def Container.withDirectory (c : Container) (path : String) (dir : Directory)
    (exclude : List String) : Container :=
  ⟨c.steps ++ [CStep.withDirectory path dir exclude]⟩

def Container.withWorkdir (c : Container) (path : String) : Container :=
  ⟨c.steps ++ [CStep.withWorkdir path]⟩

def Container.withMountedCache (c : Container) (path : String) (volume : String) : Container :=
  ⟨c.steps ++ [CStep.withMountedCache path volume]⟩

def Container.withMountedSecret (c : Container) (path : String) (sec : Secret) : Container :=
  ⟨c.steps ++ [CStep.withMountedSecret path sec]⟩

def Container.withEnvVariable (c : Container) (key value : String) (expand : Bool) : Container :=
  ⟨c.steps ++ [CStep.withEnvVariable key value expand]⟩

def Container.withEntrypoint (c : Container) (args : List String) : Container :=
  ⟨c.steps ++ [CStep.withEntrypoint args]⟩

def Container.withLabel (c : Container) (key value : String) : Container :=
  ⟨c.steps ++ [CStep.withLabel key value]⟩

def Container.withRegistryAuth (c : Container) (addr user : String) (pw : Secret) : Container :=
  ⟨c.steps ++ [CStep.withRegistryAuth addr user pw]⟩

/-- Observable execution event: a command executed in a container, or an
image publish attempt against a registry address. -/
inductive Event where
  | exec (args : List String)
  | publish (addr : String)
deriving DecidableEq

abbrev Trace := List Event

/-- Environment behaviour: exit status and captured stdout of each executed
command line, and whether the registry accepts a push to a given address. -/
structure World where
  execOk : List String → Bool
  stdoutOf : List String → String
  pushAccepted : String → Bool

/-- Membership test for the fixed shell-tolerance suffix: a command string
ending in the two bars and the word true. -/
def shellTolerant (s : String) : Bool :=
  decide ("|| true".data <:+ s.data)

/-- POSIX sh semantics of the one tolerance idiom the source uses: a step
`sh -c CMD` whose command text ends in the or-true suffix always exits zero,
whatever the preceding command did.  Every other step is decided by the
world. -/
def tolerantStep (args : List String) : Bool :=
  match args with
  | ["sh", "-c", s] => shellTolerant s
  | _ => false

/-- Does one exec step exit zero in world `w`. -/
def stepOk (w : World) (args : List String) : Bool :=
  tolerantStep args || w.execOk args

/-- Run the steps of a container in order.  Only exec steps run a process;
the remaining steps are declarative configuration.  Execution stops at the
first failing exec (the attempted exec is still recorded in the trace). -/
def runSteps (w : World) : List CStep → Trace × Bool
  | [] => ([], true)
  | CStep.withExec args :: rest =>
      if stepOk w args then
        let r := runSteps w rest
        (Event.exec args :: r.1, r.2)
      else ([Event.exec args], false)
  | _ :: rest => runSteps w rest

/-- Force a container: run all of its steps. -/
def runContainer (w : World) (c : Container) : Trace × Bool :=
  runSteps w c.steps

/-- Character-wise lower-casing, embedding the TypeScript
`String.prototype.toLowerCase` as used here on ASCII registry usernames. -/
def toLowerCase (s : String) : String :=
  ⟨s.data.map Char.toLower⟩

/-- Boolean success of a pipeline result. -/
def exceptOk : Except String String → Bool
  | Except.ok _ => true
  | Except.error _ => false

/-- Recognises publish events in a trace. -/
def isPublishEvent : Event → Bool
  | Event.publish _ => true
  | Event.exec _ => false

/-- Private helper `base(source)`: node 24 slim image, corepack enabled,
source mounted at /src excluding node_modules, dist and .dagger, workdir
/src, the named pnpm_store cache volume mounted at /pnpm/store, PNPM_HOME
and PATH set, plus the opencontainers source label. -/
def base (source : Directory) : Container :=
  dagContainer.fromImage "node:24-slim"
    |>.withExec ["corepack", "enable"]
    |>.withDirectory "/src" source ["node_modules", "dist", ".dagger"]
    |>.withWorkdir "/src"
    |>.withMountedCache "/pnpm/store" "pnpm_store"
    |>.withEnvVariable "PNPM_HOME" "/pnpm" false
    |>.withEnvVariable "PATH" "/pnpm:$PATH" true
    |>.withLabel "org.opencontainers.image.source" "https://github.com/fucosan/ci-cd"

/-- Container whose forcing is the body of `test(source)`. -/
def testContainer (source : Directory) : Container :=
  base source
    |>.withExec ["pnpm", "install"]
    |>.withExec ["pnpm", "run", "test"]

/-- Public operation `test(source)`: forces the test container and returns
the captured stdout of the final exec, or the first failure. -/
def test (w : World) (source : Directory) : Trace × Except String String :=
  let r := runContainer w (testContainer source)
  if r.2 then (r.1, Except.ok (w.stdoutOf ["pnpm", "run", "test"]))
  else (r.1, Except.error "test failed")

/-- Container underlying the public `build(source)` operation. -/
def buildContainer (source : Directory) : Container :=
  base source
    |>.withExec ["pnpm", "install"]
    |>.withExec ["pnpm", "run", "build"]

/-- Public operation `build(source)`: returns the dist directory handle of
the build container; like the source, it forces nothing by itself. -/
def build (source : Directory) : Directory :=
  Directory.ofContainer (buildContainer source).steps "dist"

/-- Build container constructed inside `deploy` (dev dependencies included
via the prod=false install flag). -/
def deployBuildContainer (source : Directory) : Container :=
  base source
    |>.withExec ["pnpm", "install", "--prod=false"]
    |>.withExec ["pnpm", "run", "build"]

/-- Production image assembled by `deploy`: clean node 24 alpine base, the
dist output copied to /app, node_modules copied to /app/node_modules,
workdir /app, entrypoint node main.js. -/
def deployProdImage (source : Directory) : Container :=
  dagContainer.fromImage "node:24-alpine"
    |>.withDirectory "/app" (Directory.ofContainer (deployBuildContainer source).steps "dist") []
    |>.withDirectory "/app/node_modules"
        (Directory.ofContainer (deployBuildContainer source).steps "node_modules") []
    |>.withWorkdir "/app"
    |>.withEntrypoint ["node", "main.js"]

/-- Image name computed inside `deploy`: lower-cased username, fixed app
name, latest tag. -/
def deployImageName (username : String) : String :=
  toLowerCase username ++ "/my-nest-app:latest"

/-- Full address `deploy` publishes to. -/
def publishAddr (registryAddr username : String) : String :=
  registryAddr ++ "/" ++ deployImageName username

/-- Public operation `deploy(source, registryAddr, username, password)`:
runs tests, then forces the build container and the production image, then
publishes with registry auth attached; any stage failure aborts the rest.
The publish returns the address the image was pushed under. -/
def deploy (w : World) (source : Directory) (registryAddr username : String)
    (password : Secret) : Trace × Except String String :=
  let r1 := test w source
  match r1.2 with
  | Except.error e => (r1.1, Except.error e)
  | Except.ok _ =>
    let rb := runContainer w (deployBuildContainer source)
    if rb.2 then
      let rp := runContainer w
        ((deployProdImage source).withRegistryAuth registryAddr username password)
      if rp.2 then
        let addr := publishAddr registryAddr username
        if w.pushAccepted addr then
          (r1.1 ++ rb.1 ++ rp.1 ++ [Event.publish addr], Except.ok addr)
        else
          (r1.1 ++ rb.1 ++ rp.1 ++ [Event.publish addr], Except.error "publish rejected")
      else (r1.1 ++ rb.1 ++ rp.1, Except.error "image build failed")
    else (r1.1 ++ rb.1, Except.error "build failed")

/-- Image name recomputed inside `deployToServer` from its own inputs. -/
def fullImageName (registryAddr username : String) : String :=
  registryAddr ++ "/" ++ toLowerCase username ++ "/my-nest-app:latest"

/-- Remote shell script template of `deployToServer`, verbatim: login with
the plaintext password piped to docker login, pull, tolerated stop and rm of
the fixed nest-app container, detached run on host port 3000 with restart
policy unless-stopped, then an image prune. -/
def remoteScript (pwPlain registryAddr username imageName : String) : String :=
  "\n      echo \"" ++ pwPlain ++ "\" | docker login " ++ registryAddr ++ " -u "
    ++ username ++ " --password-stdin\n      docker pull " ++ imageName
    ++ "\n      docker stop nest-app 2>/dev/null || true\n      docker rm nest-app 2>/dev/null || true\n      docker run -d --name nest-app --restart unless-stopped -p 3000:3000 "
    ++ imageName ++ "\n      docker image prune -f\n    "

/-- Host-key scan command string, tolerated by construction. -/
def scanCmd (port : Nat) (sshHost : String) : String :=
  "ssh-keyscan -p " ++ toString port ++ " " ++ sshHost
    ++ " > /root/.ssh/known_hosts 2>/dev/null || true"

/-- Final SSH invocation argv of `deployToServer`. -/
def sshExecArgs (port : Nat) (sshHost sshUser script : String) : List String :=
  ["ssh", "-o", "StrictHostKeyChecking=no", "-i", "/root/.ssh/id_rsa", "-p",
   toString port, sshUser ++ "@" ++ sshHost, script]

/-- Disposable utility container built by `deployToServer`: alpine with an
ssh client, the private key staged with mode 600, a best-effort host-key
scan, then the single SSH session running the remote script. -/
def sshSetupContainer (sshKey : Secret) (port : Nat) (sshHost sshUser script : String) :
    Container :=
  dagContainer.fromImage "alpine:latest"
    |>.withExec ["apk", "add", "--no-cache", "openssh-client"]
    |>.withExec ["mkdir", "-p", "/root/.ssh"]
    |>.withMountedSecret "/tmp/ssh_key" sshKey
    |>.withExec ["sh", "-c", "cp /tmp/ssh_key /root/.ssh/id_rsa && chmod 600 /root/.ssh/id_rsa"]
    |>.withExec ["sh", "-c", scanCmd port sshHost]
    |>.withExec (sshExecArgs port sshHost sshUser script)

/-- Public operation `deployToServer`: deploy to the registry, then open an
SSH session from a utility container and run the generated remote script;
returns a confirmation combining the published reference and the host. -/
def deployToServer (w : World) (source : Directory) (registryAddr username : String)
    (password : Secret) (sshHost sshUser : String) (sshKey : Secret)
    (sshPort : Option Nat) : Trace × Except String String :=
  let r1 := deploy w source registryAddr username password
  match r1.2 with
  | Except.error e => (r1.1, Except.error e)
  | Except.ok imageRef =>
    let port := sshPort.getD 22
    let imageName := fullImageName registryAddr username
    let script := remoteScript password.plaintext registryAddr username imageName
    let r2 := runContainer w (sshSetupContainer sshKey port sshHost sshUser script)
    if r2.2 then
      (r1.1 ++ r2.1, Except.ok ("Deployed " ++ imageRef ++ " to " ++ sshHost))
    else (r1.1 ++ r2.1, Except.error "ssh failed")

/-- Environment variable steps of a container, in order. -/
def envVarSteps (c : Container) : List (String × String × Bool) :=
  c.steps.filterMap fun s =>
    match s with
    | CStep.withEnvVariable k v e => some (k, v, e)
    | _ => none

/-- Cache volume mounts of a container, in order. -/
def cacheMounts (c : Container) : List (String × String) :=
  c.steps.filterMap fun s =>
    match s with
    | CStep.withMountedCache p v => some (p, v)
    | _ => none

/-- Effective working directory after all steps. -/
def workdirOf (c : Container) : Option String :=
  c.steps.foldl (fun acc s =>
    match s with
    | CStep.withWorkdir p => some p
    | _ => acc) none

/-- Effective entrypoint after all steps. -/
def entrypointOf (c : Container) : Option (List String) :=
  c.steps.foldl (fun acc s =>
    match s with
    | CStep.withEntrypoint e => some e
    | _ => acc) none

/-- First base image a container is built from. -/
def baseImageOf (c : Container) : Option String :=
  c.steps.findSome? fun s =>
    match s with
    | CStep.fromImage i => some i
    | _ => none

/-- Helper: code points below the surrogate range survive the Char round
trip. -/
theorem toNat_ofNat_valid (n : Nat) (h : n < 55296) : (Char.ofNat n).toNat = n := by
  rw [Char.ofNat, dif_pos (Or.inl h)]
  rfl

/-- Helper: lower-casing moves an upper-case basic latin letter. -/
theorem toLower_ne_of_isUpper (c : Char) (h : c.isUpper = true) : Char.toLower c ≠ c := by
  have hv : 65 ≤ c.val ∧ c.val ≤ 90 := by simpa [Char.isUpper] using h
  have hn : 65 ≤ c.toNat ∧ c.toNat ≤ 90 := by
    simp [Char.toNat]
    exact ⟨hv.1, hv.2⟩
  intro heq
  have h2 : (Char.toLower c).toNat = c.toNat := by rw [heq]
  rw [Char.toLower] at h2
  simp only [if_pos hn] at h2
  rw [toNat_ofNat_valid] at h2
  · omega
  · omega

/-- Helper: mapping lower-casing over a list changes it when it holds an
upper-case letter. -/
theorem mapToLower_ne (l : List Char) (h : ∃ c ∈ l, c.isUpper = true) :
    l.map Char.toLower ≠ l := by
  induction l with
  | nil => rcases h with ⟨c, hc, _⟩; cases hc
  | cons a l ih =>
    rcases h with ⟨c, hc, hup⟩
    rcases List.mem_cons.mp hc with rfl | hmem
    · intro he
      simp only [List.map_cons, List.cons.injEq] at he
      exact toLower_ne_of_isUpper c hup he.1
    · intro he
      simp only [List.map_cons, List.cons.injEq] at he
      exact ih ⟨c, hmem, hup⟩ he.2

/-- Helper: a username with an upper-case letter is changed by lower-casing. -/
theorem toLowerCase_ne (u : String) (h : ∃ c ∈ u.data, c.isUpper = true) :
    toLowerCase u ≠ u := by
  intro he
  apply mapToLower_ne u.data h
  have h2 := congrArg String.data he
  simpa [toLowerCase] using h2

/-- Helper: the second half of a string append is a data suffix. -/
theorem suffix_of_append (s t : String) : t.data <:+ (s ++ t).data := by
  rw [String.data_append]
  exact List.suffix_append _ _

/-- Helper: the host-key scan command always carries the tolerance suffix. -/
theorem scanCmd_tolerant (port : Nat) (sshHost : String) :
    shellTolerant (scanCmd port sshHost) = true := by
  have h1 : "|| true".data <:+ " > /root/.ssh/known_hosts 2>/dev/null || true".data := by
    decide
  have h2 := suffix_of_append ("ssh-keyscan -p " ++ toString port ++ " " ++ sshHost)
      " > /root/.ssh/known_hosts 2>/dev/null || true"
  have h3 : "|| true".data <:+ (scanCmd port sshHost).data := h1.trans h2
  simpa [shellTolerant] using h3

/-- Remote script line: registry login with the plaintext password piped in
and the verbatim username. -/
def dockerLoginLine (pwPlain registryAddr username : String) : String :=
  "echo \"" ++ pwPlain ++ "\" | docker login " ++ registryAddr ++ " -u "
    ++ username ++ " --password-stdin"

/-- Remote script line: pull of the image. -/
def dockerPullLine (imageName : String) : String :=
  "docker pull " ++ imageName

/-- Remote script line: tolerated stop of the fixed nest-app container. -/
def dockerStopLine : String :=
  "docker stop nest-app 2>/dev/null || true"

/-- Remote script line: tolerated removal of the fixed nest-app container. -/
def dockerRmLine : String :=
  "docker rm nest-app 2>/dev/null || true"

/-- Remote script line: detached run with the fixed container name, host
port 3000 and restart policy unless-stopped. -/
def dockerRunLine (imageName : String) : String :=
  "docker run -d --name nest-app --restart unless-stopped -p 3000:3000 " ++ imageName

/-- Remote script line: prune of dangling images. -/
def dockerPruneLine : String :=
  "docker image prune -f"

/-- C5: the remote shell script generated by deployToServer consists of
exactly the registry login with the plaintext password, the pull of the
recomputed image, the tolerated stop and rm of the fixed nest-app
container, the detached run on host port 3000 with restart policy
unless-stopped, and the prune of dangling images, in that order. -/
theorem remoteScript_is_fixed_command_sequence (password : Secret)
    (registryAddr username : String) :
    remoteScript password.plaintext registryAddr username (fullImageName registryAddr username) =
      "\n      " ++ dockerLoginLine password.plaintext registryAddr username ++
      "\n      " ++ dockerPullLine (fullImageName registryAddr username) ++
      "\n      " ++ dockerStopLine ++
      "\n      " ++ dockerRmLine ++
      "\n      " ++ dockerRunLine (fullImageName registryAddr username) ++
      "\n      " ++ dockerPruneLine ++ "\n    " ∧
    shellTolerant dockerStopLine = true ∧
    shellTolerant dockerRmLine = true ∧
    fullImageName registryAddr username =
      registryAddr ++ "/" ++ toLowerCase username ++ "/my-nest-app:latest" := by
  refine ⟨?_, by decide, by decide, rfl⟩
  simp only [remoteScript, dockerLoginLine, dockerPullLine, dockerStopLine, dockerRmLine,
    dockerRunLine, dockerPruneLine, String.append_assoc]
  rfl

/-- C6: deployToServer with sshPort omitted behaves identically, trace and
result, to deployToServer with sshPort 22. -/
theorem deployToServer_default_port_is_22 (w : World) (source : Directory)
    (registryAddr username : String) (password : Secret) (sshHost sshUser : String)
    (sshKey : Secret) :
    deployToServer w source registryAddr username password sshHost sshUser sshKey none =
      deployToServer w source registryAddr username password sshHost sshUser sshKey (some 22) :=
  rfl

/-- C7: the production image assembled by deploy starts from the minimal
node alpine runtime image, copies the build output to the /app directory
and the dependency directory to /app/node_modules, has /app as working
directory and node main.js as entrypoint. -/
theorem deploy_production_image_shape (source : Directory) :
    (deployProdImage source).steps =
      [CStep.fromImage "node:24-alpine",
       CStep.withDirectory "/app"
         (Directory.ofContainer (deployBuildContainer source).steps "dist") [],
       CStep.withDirectory "/app/node_modules"
         (Directory.ofContainer (deployBuildContainer source).steps "node_modules") [],
       CStep.withWorkdir "/app",
       CStep.withEntrypoint ["node", "main.js"]] ∧
    baseImageOf (deployProdImage source) = some "node:24-alpine" ∧
    workdirOf (deployProdImage source) = some "/app" ∧
    entrypointOf (deployProdImage source) = some ["node", "main.js"] :=
  ⟨rfl, rfl, rfl, rfl⟩

/-- C8: test, build and the internal build of deploy all extend the single
base environment, which enables corepack, mounts the source at /src
excluding node_modules, dist and .dagger, sets /src as workdir, mounts
exactly the named pnpm_store cache volume, and sets exactly the two
environment variables PNPM_HOME and PATH. -/
theorem pipelines_share_base_environment (source : Directory) :
    (testContainer source).steps = (base source).steps ++
      [CStep.withExec ["pnpm", "install"], CStep.withExec ["pnpm", "run", "test"]] ∧
    (buildContainer source).steps = (base source).steps ++
      [CStep.withExec ["pnpm", "install"], CStep.withExec ["pnpm", "run", "build"]] ∧
    build source = Directory.ofContainer (buildContainer source).steps "dist" ∧
    (deployBuildContainer source).steps = (base source).steps ++
      [CStep.withExec ["pnpm", "install", "--prod=false"],
       CStep.withExec ["pnpm", "run", "build"]] ∧
    CStep.withExec ["corepack", "enable"] ∈ (base source).steps ∧
    CStep.withDirectory "/src" source ["node_modules", "dist", ".dagger"] ∈ (base source).steps ∧
    workdirOf (base source) = some "/src" ∧
    cacheMounts (base source) = [("/pnpm/store", "pnpm_store")] ∧
    envVarSteps (base source) =
      [("PNPM_HOME", "/pnpm", false), ("PATH", "/pnpm:$PATH", true)] := by
  refine ⟨rfl, rfl, rfl, rfl, ?_, ?_, rfl, rfl, rfl⟩
  · simp [base, dagContainer, Container.fromImage, Container.withExec, Container.withDirectory,
      Container.withWorkdir, Container.withMountedCache, Container.withEnvVariable,
      Container.withLabel]
  · simp [base, dagContainer, Container.fromImage, Container.withExec, Container.withDirectory,
      Container.withWorkdir, Container.withMountedCache, Container.withEnvVariable,
      Container.withLabel]

/-- Concrete source tree handle for witnesses. -/
def d0 : Directory := Directory.source 0

/-- Concrete password secret for witnesses. -/
def pw0 : Secret := ⟨"hunter2"⟩

/-- Concrete ssh key secret for witnesses. -/
def sshKey0 : Secret := ⟨"PRIVATE-KEY"⟩

/-- World in which every command succeeds and every push is accepted. -/
def wAll : World := ⟨fun _ => true, fun _ => "out", fun _ => true⟩

/-- World in which exactly the pnpm run test command fails. -/
def wTestFails : World :=
  ⟨fun a => !(a == ["pnpm", "run", "test"]), fun _ => "out", fun _ => true⟩

/-- C1: when install, test and build commands succeed and the push is
accepted, deploy returns the reference formed from the registry address,
the lower-cased username, the fixed app name and the latest tag. -/
theorem deploy_returns_lowercased_reference (w : World) (source : Directory)
    (registryAddr username : String) (password : Secret)
    (h1 : w.execOk ["corepack", "enable"] = true)
    (h2 : w.execOk ["pnpm", "install"] = true)
    (h3 : w.execOk ["pnpm", "run", "test"] = true)
    (h4 : w.execOk ["pnpm", "install", "--prod=false"] = true)
    (h5 : w.execOk ["pnpm", "run", "build"] = true)
    (h6 : w.pushAccepted (publishAddr registryAddr username) = true) :
    (deploy w source registryAddr username password).2 =
      Except.ok (registryAddr ++ "/" ++ toLowerCase username ++ "/my-nest-app:latest") := by
  have h7 : w.pushAccepted (registryAddr ++ ("/" ++ (toLowerCase username ++
      "/my-nest-app:latest"))) = true := by
    simpa [publishAddr, deployImageName, String.append_assoc] using h6
  simp [deploy, test, testContainer, deployBuildContainer, deployProdImage, base, dagContainer,
    Container.fromImage, Container.withExec, Container.withDirectory, Container.withWorkdir,
    Container.withMountedCache, Container.withEnvVariable, Container.withLabel,
    Container.withEntrypoint, Container.withRegistryAuth, runContainer, runSteps, stepOk,
    tolerantStep, h1, h2, h3, h4, h5, h7, publishAddr, deployImageName, String.append_assoc]

/-- Witness for C1 at the inputs named by the claim: the Alice username is
lower-cased in the returned reference. -/
theorem deploy_returns_lowercased_reference_witness :
    (deploy wAll d0 "reg.example.com" "Alice" pw0).2 =
      Except.ok "reg.example.com/alice/my-nest-app:latest" := by
  have h := deploy_returns_lowercased_reference wAll d0 "reg.example.com" "Alice" pw0
    rfl rfl rfl rfl rfl rfl
  exact h.trans (congrArg Except.ok (by decide))

/-- C2: when the test command exits non-zero, deploy fails and its trace
holds no build install, no build command and no publish attempt. -/
theorem deploy_test_failure_short_circuits (w : World) (source : Directory)
    (registryAddr username : String) (password : Secret)
    (h : w.execOk ["pnpm", "run", "test"] = false) :
    exceptOk (deploy w source registryAddr username password).2 = false ∧
    Event.exec ["pnpm", "install", "--prod=false"] ∉
      (deploy w source registryAddr username password).1 ∧
    Event.exec ["pnpm", "run", "build"] ∉ (deploy w source registryAddr username password).1 ∧
    (deploy w source registryAddr username password).1.filter isPublishEvent = [] := by
  cases h1 : w.execOk ["corepack", "enable"] <;>
  cases h2 : w.execOk ["pnpm", "install"] <;>
  simp [deploy, test, testContainer, base, dagContainer, Container.fromImage, Container.withExec,
    Container.withDirectory, Container.withWorkdir, Container.withMountedCache,
    Container.withEnvVariable, Container.withLabel, runContainer, runSteps, stepOk, tolerantStep,
    exceptOk, isPublishEvent, h, h1, h2]

/-- Witness for C2: in a world where only the test command fails, deploy
fails with no build or publish activity in its trace. -/
theorem deploy_test_failure_short_circuits_witness :
    wTestFails.execOk ["pnpm", "run", "test"] = false ∧
    exceptOk (deploy wTestFails d0 "reg.example.com" "alice" pw0).2 = false ∧
    Event.exec ["pnpm", "install", "--prod=false"] ∉
      (deploy wTestFails d0 "reg.example.com" "alice" pw0).1 ∧
    Event.exec ["pnpm", "run", "build"] ∉ (deploy wTestFails d0 "reg.example.com" "alice" pw0).1 ∧
    (deploy wTestFails d0 "reg.example.com" "alice" pw0).1.filter isPublishEvent = [] := by
  have h := deploy_test_failure_short_circuits wTestFails d0 "reg.example.com" "alice" pw0
    (by decide)
  exact ⟨by decide, h.1, h.2.1, h.2.2.1, h.2.2.2⟩

/-- C3: on a fully succeeding source tree, deploy runs the test stage
commands, then the build stage commands, then the publish, in exactly that
order, and returns the published reference. -/
theorem deploy_runs_test_then_build_then_publish (w : World) (source : Directory)
    (registryAddr username : String) (password : Secret)
    (h1 : w.execOk ["corepack", "enable"] = true)
    (h2 : w.execOk ["pnpm", "install"] = true)
    (h3 : w.execOk ["pnpm", "run", "test"] = true)
    (h4 : w.execOk ["pnpm", "install", "--prod=false"] = true)
    (h5 : w.execOk ["pnpm", "run", "build"] = true)
    (h6 : w.pushAccepted (publishAddr registryAddr username) = true) :
    deploy w source registryAddr username password =
      ([Event.exec ["corepack", "enable"], Event.exec ["pnpm", "install"],
        Event.exec ["pnpm", "run", "test"], Event.exec ["corepack", "enable"],
        Event.exec ["pnpm", "install", "--prod=false"], Event.exec ["pnpm", "run", "build"],
        Event.publish (publishAddr registryAddr username)],
       Except.ok (publishAddr registryAddr username)) := by
  simp [deploy, test, testContainer, deployBuildContainer, deployProdImage, base, dagContainer,
    Container.fromImage, Container.withExec, Container.withDirectory, Container.withWorkdir,
    Container.withMountedCache, Container.withEnvVariable, Container.withLabel,
    Container.withEntrypoint, Container.withRegistryAuth, runContainer, runSteps, stepOk,
    tolerantStep, h1, h2, h3, h4, h5, h6]

/-- Witness for C3 on a concrete all-succeeding world. -/
theorem deploy_runs_test_then_build_then_publish_witness :
    deploy wAll d0 "reg.example.com" "Alice" pw0 =
      ([Event.exec ["corepack", "enable"], Event.exec ["pnpm", "install"],
        Event.exec ["pnpm", "run", "test"], Event.exec ["corepack", "enable"],
        Event.exec ["pnpm", "install", "--prod=false"], Event.exec ["pnpm", "run", "build"],
        Event.publish (publishAddr "reg.example.com" "Alice")],
       Except.ok (publishAddr "reg.example.com" "Alice")) :=
  deploy_runs_test_then_build_then_publish wAll d0 "reg.example.com" "Alice" pw0
    rfl rfl rfl rfl rfl rfl

/-- C4: the host-key scan step of deployToServer can never fail (its shell
command is suffixed so the shell exits zero whatever the scan did), and the
success of deployToServer is exactly determined by the deploy result, the
utility container setup commands, and the exit status of the final SSH
command; the scan outcome does not appear. -/
theorem deployToServer_hostkey_scan_never_fails :
    (∀ (w : World) (port : Nat) (sshHost : String),
        stepOk w ["sh", "-c", scanCmd port sshHost] = true) ∧
    (∀ (w : World) (source : Directory) (registryAddr username : String) (password : Secret)
        (sshHost sshUser : String) (sshKey : Secret) (sshPort : Option Nat),
        exceptOk (deployToServer w source registryAddr username password sshHost sshUser sshKey
            sshPort).2 =
          (exceptOk (deploy w source registryAddr username password).2 &&
           w.execOk ["apk", "add", "--no-cache", "openssh-client"] &&
           w.execOk ["mkdir", "-p", "/root/.ssh"] &&
           w.execOk ["sh", "-c",
             "cp /tmp/ssh_key /root/.ssh/id_rsa && chmod 600 /root/.ssh/id_rsa"] &&
           w.execOk (sshExecArgs (sshPort.getD 22) sshHost sshUser
             (remoteScript password.plaintext registryAddr username
               (fullImageName registryAddr username))))) := by
  constructor
  · intro w port sshHost
    simp [stepOk, tolerantStep, scanCmd_tolerant]
  · intro w source registryAddr username password sshHost sshUser sshKey sshPort
    rcases hd : deploy w source registryAddr username password with ⟨t, r⟩
    cases r with
    | error e => simp [deployToServer, hd, exceptOk]
    | ok ref =>
      have hstepApk : stepOk w ["apk", "add", "--no-cache", "openssh-client"] =
          w.execOk ["apk", "add", "--no-cache", "openssh-client"] := by
        simp [stepOk, tolerantStep]
      have hstepMkdir : stepOk w ["mkdir", "-p", "/root/.ssh"] =
          w.execOk ["mkdir", "-p", "/root/.ssh"] := by
        simp [stepOk, tolerantStep]
      have hstepCp : stepOk w ["sh", "-c",
          "cp /tmp/ssh_key /root/.ssh/id_rsa && chmod 600 /root/.ssh/id_rsa"] =
          w.execOk ["sh", "-c",
            "cp /tmp/ssh_key /root/.ssh/id_rsa && chmod 600 /root/.ssh/id_rsa"] := by
        have hcp : tolerantStep ["sh", "-c",
            "cp /tmp/ssh_key /root/.ssh/id_rsa && chmod 600 /root/.ssh/id_rsa"] = false := by
          decide
        simp [stepOk, hcp]
      have hstepScan : stepOk w ["sh", "-c", scanCmd (sshPort.getD 22) sshHost] = true := by
        have := scanCmd_tolerant (sshPort.getD 22) sshHost
        simp [stepOk, tolerantStep, this]
      have hstepSsh : stepOk w (sshExecArgs (sshPort.getD 22) sshHost sshUser
          (remoteScript password.plaintext registryAddr username
            (fullImageName registryAddr username))) =
          w.execOk (sshExecArgs (sshPort.getD 22) sshHost sshUser
            (remoteScript password.plaintext registryAddr username
              (fullImageName registryAddr username))) := by
        have hts : tolerantStep (sshExecArgs (sshPort.getD 22) sshHost sshUser
            (remoteScript password.plaintext registryAddr username
              (fullImageName registryAddr username))) = false := rfl
        simp [stepOk, hts]
      cases ha : w.execOk ["apk", "add", "--no-cache", "openssh-client"] <;>
      cases hm : w.execOk ["mkdir", "-p", "/root/.ssh"] <;>
      cases hc : w.execOk ["sh", "-c",
          "cp /tmp/ssh_key /root/.ssh/id_rsa && chmod 600 /root/.ssh/id_rsa"] <;>
      cases hs : w.execOk (sshExecArgs (sshPort.getD 22) sshHost sshUser
          (remoteScript password.plaintext registryAddr username
            (fullImageName registryAddr username))) <;>
      simp [deployToServer, hd, exceptOk, runContainer, sshSetupContainer, dagContainer,
        Container.fromImage, Container.withExec, Container.withMountedSecret, runSteps,
        hstepApk, hstepMkdir, hstepCp, hstepScan, hstepSsh, ha, hm, hc, hs]

/-- C9: in the remote script the login command carries the username
verbatim while the pulled image name carries the lower-cased username, and
for a username holding an upper-case letter the two differ. -/
theorem remoteScript_username_casing_mismatch (pwPlain registryAddr username : String)
    (h : ∃ c ∈ username.data, c.isUpper = true) :
    username ≠ toLowerCase username ∧
    ∃ rest, remoteScript pwPlain registryAddr username (fullImageName registryAddr username) =
      "\n      " ++ dockerLoginLine pwPlain registryAddr username ++
      "\n      " ++ dockerPullLine
        (registryAddr ++ "/" ++ toLowerCase username ++ "/my-nest-app:latest") ++ rest := by
  refine ⟨fun he => toLowerCase_ne username h he.symm, ?_⟩
  refine ⟨"\n      " ++ dockerStopLine ++ "\n      " ++ dockerRmLine ++ "\n      " ++
      dockerRunLine (fullImageName registryAddr username) ++ "\n      " ++ dockerPruneLine ++
      "\n    ", ?_⟩
  simp only [remoteScript, dockerLoginLine, dockerPullLine, dockerStopLine, dockerRmLine,
    dockerRunLine, dockerPruneLine, fullImageName, String.append_assoc]
  rfl

/-- Witness for C9 with the upper-cased username Alice. -/
theorem remoteScript_username_casing_mismatch_witness :
    (∃ c ∈ ("Alice" : String).data, c.isUpper = true) ∧
    ("Alice" : String) ≠ toLowerCase "Alice" ∧
    ∃ rest, remoteScript "hunter2" "reg.example.com" "Alice"
        (fullImageName "reg.example.com" "Alice") =
      "\n      " ++ dockerLoginLine "hunter2" "reg.example.com" "Alice" ++
      "\n      " ++ dockerPullLine
        ("reg.example.com" ++ "/" ++ toLowerCase "Alice" ++ "/my-nest-app:latest") ++ rest := by
  have h := remoteScript_username_casing_mismatch "hunter2" "reg.example.com" "Alice" (by decide)
  exact ⟨by decide, h.1, h.2⟩

/-- C10: whatever reference string deploy returned, the remote script run
by deployToServer is recomputed from the inputs (registry address,
lower-cased username, fixed app name) and never mentions that reference,
while the returned confirmation string does use the returned reference. -/
theorem deployToServer_recomputes_image_name (w : World) (source : Directory)
    (registryAddr username : String) (password : Secret) (sshHost sshUser : String)
    (sshKey : Secret) (sshPort : Option Nat) (t : Trace) (imageRef : String)
    (h : deploy w source registryAddr username password = (t, Except.ok imageRef)) :
    deployToServer w source registryAddr username password sshHost sshUser sshKey sshPort =
      (t ++ (runContainer w (sshSetupContainer sshKey (sshPort.getD 22) sshHost sshUser
          (remoteScript password.plaintext registryAddr username
            (fullImageName registryAddr username)))).1,
       if (runContainer w (sshSetupContainer sshKey (sshPort.getD 22) sshHost sshUser
           (remoteScript password.plaintext registryAddr username
             (fullImageName registryAddr username)))).2 = true then
         Except.ok ("Deployed " ++ imageRef ++ " to " ++ sshHost)
       else Except.error "ssh failed") := by
  simp only [deployToServer, h]
  cases hr : (runContainer w (sshSetupContainer sshKey (sshPort.getD 22) sshHost sshUser
      (remoteScript password.plaintext registryAddr username
        (fullImageName registryAddr username)))).2 <;>
  simp [hr]

/-- Trace of a fully successful deploy run at the witness inputs. -/
def demoTrace : Trace :=
  [Event.exec ["corepack", "enable"], Event.exec ["pnpm", "install"],
   Event.exec ["pnpm", "run", "test"], Event.exec ["corepack", "enable"],
   Event.exec ["pnpm", "install", "--prod=false"], Event.exec ["pnpm", "run", "build"],
   Event.publish (publishAddr "reg.example.com" "Alice")]

/-- Witness for C10 on a concrete all-succeeding world. -/
theorem deployToServer_recomputes_image_name_witness :
    deploy wAll d0 "reg.example.com" "Alice" pw0 =
      (demoTrace, Except.ok (publishAddr "reg.example.com" "Alice")) ∧
    deployToServer wAll d0 "reg.example.com" "Alice" pw0 "srv.example.com" "root" sshKey0 none =
      (demoTrace ++ (runContainer wAll (sshSetupContainer sshKey0 ((none : Option Nat).getD 22)
          "srv.example.com" "root" (remoteScript pw0.plaintext "reg.example.com" "Alice"
            (fullImageName "reg.example.com" "Alice")))).1,
       if (runContainer wAll (sshSetupContainer sshKey0 ((none : Option Nat).getD 22)
           "srv.example.com" "root" (remoteScript pw0.plaintext "reg.example.com" "Alice"
             (fullImageName "reg.example.com" "Alice")))).2 = true then
         Except.ok ("Deployed " ++ publishAddr "reg.example.com" "Alice" ++ " to " ++
           "srv.example.com")
       else Except.error "ssh failed") := by
  have h1 : deploy wAll d0 "reg.example.com" "Alice" pw0 =
      (demoTrace, Except.ok (publishAddr "reg.example.com" "Alice")) := rfl
  exact ⟨h1, deployToServer_recomputes_image_name wAll d0 "reg.example.com" "Alice" pw0
    "srv.example.com" "root" sshKey0 none demoTrace (publishAddr "reg.example.com" "Alice") h1⟩
